import Mathlib

/-!
Verification of `projects/control_board_current_characterization/plot.py`
(UBC-Solar/solar_tools).

The script's numeric pipeline is embedded shallowly: numpy arrays become
`List ℚ` (the script's float arithmetic is modelled by exact rationals),
Python exceptions become `Option`/`Except`, and the file-system / plotting
side effects are abstracted as parameters or result constructors.
-/

set_option autoImplicit false

/-- Internal voltage offset of the TMCS1108A3U current sensor
(`VOLTAGE_OFFSET = 1.67` in plot.py, line 20). -/
def VOLTAGE_OFFSET : ℚ := 167 / 100

/-- Full discrete convolution of two sequences, as computed by
`np.convolve(a, v)` with the default `mode='full'`: output index `k`
holds `Σ_j a[k-j] * v[j]`, and the output has length `M + N - 1`. -/
def convFull (a v : List ℚ) : List ℚ :=
  (List.range (a.length + v.length - 1)).map (fun k =>
    ((List.range v.length).map (fun j =>
      if j ≤ k then a.getD (k - j) 0 * v.getD j 0 else 0)).sum)

/-- `np.convolve(a, v, mode='same')`: the centered `max(M, N)` values of
the full convolution, i.e. `full[(min(M,N)-1)//2 :][: max(M,N)]`. -/
def convSame (a v : List ℚ) : List ℚ :=
  ((convFull a v).drop ((min a.length v.length - 1) / 2)).take
    (max a.length v.length)

/-- `np.pad(data, pad_width, mode='edge')`: replicate the first element
`pad_width` times on the left and the last element `pad_width` times on
the right. -/
def padEdge (data : List ℚ) (pad_width : ℕ) : List ℚ :=
  List.replicate pad_width (data.headD 0) ++ data ++
    List.replicate pad_width (data.getLastD 0)

/-- `smooth_data(data, window_size)` from plot.py (lines 22-44): if the
input is shorter than the window it is returned unchanged; otherwise the
data is edge-padded by `window_size // 2`, convolved with the uniform
kernel `np.ones(window_size)/window_size` in `'same'` mode, and the
padding is stripped with the Python slice `smoothed[pad_width:-pad_width]`
(which is `smoothed[pad_width : len - pad_width]`, empty when
`pad_width = 0`). -/
def smooth_data (data : List ℚ) (window_size : ℕ) : List ℚ :=
  if data.length < window_size then data
  else
    let pad_width := window_size / 2
    let padded_data := padEdge data pad_width
    let kernel := List.replicate window_size ((window_size : ℚ))⁻¹
    let smoothed := convSame padded_data kernel
    let stop := if pad_width = 0 then 0 else smoothed.length - pad_width
    (smoothed.take stop).drop pad_width

/-- One element of the clipping step `voltage[voltage < -0.1] = 0`
(plot.py line 105): values strictly below `-0.1` become `0`, all others
are untouched. -/
def clipEl (v : ℚ) : ℚ :=
  if v < -(1 / 10) then 0 else v

/-- The clipping step applied to the whole voltage array. -/
def clipVoltage (vs : List ℚ) : List ℚ :=
  vs.map clipEl

/-- The offset-correction step `voltage = voltage - voltage_offset`
(plot.py line 102). -/
def applyOffset (off : ℚ) (vs : List ℚ) : List ℚ :=
  vs.map (fun v => v - off)

theorem convFull_length (a v : List ℚ) :
    (convFull a v).length = a.length + v.length - 1 := by
  simp [convFull]

theorem convSame_length (a v : List ℚ) :
    (convSame a v).length =
      min (max a.length v.length)
        (a.length + v.length - 1 - (min a.length v.length - 1) / 2) := by
  simp [convSame, convFull_length, Nat.min_comm]

theorem padEdge_length (data : List ℚ) (p : ℕ) :
    (padEdge data p).length = data.length + 2 * p := by
  simp [padEdge]; omega

set_option maxHeartbeats 1000000 in
/-- C1: with the default window size 11, `smooth_data` preserves the
length of its input: a short input (fewer than 11 samples) is returned
as is, and otherwise edge-padding by 5, convolving with the uniform
11-point kernel in `'same'` mode and stripping the padding leaves
exactly `data.length` samples. -/
theorem smooth_data_length (data : List ℚ) :
    (smooth_data data 11).length = data.length := by
  by_cases h : data.length < 11
  · simp [smooth_data, h]
  · unfold smooth_data
    rw [if_neg h]
    simp only [List.length_drop, List.length_take, convSame_length,
      padEdge_length, List.length_replicate]
    norm_num
    omega

/-- C10: an input strictly shorter than the window size is returned
unchanged by `smooth_data` — no padding, convolution or modification is
applied. -/
theorem smooth_data_short_identity (data : List ℚ) (window_size : ℕ)
    (h : data.length < window_size) :
    smooth_data data window_size = data := by
  simp [smooth_data, h]

theorem smooth_data_short_identity_witness :
    ([1, 2, 3] : List ℚ).length < 11 ∧ smooth_data [1, 2, 3] 11 = [1, 2, 3] :=
  ⟨by decide, smooth_data_short_identity [1, 2, 3] 11 (by decide)⟩

/-- C3: clipping zeroes a sample exactly when it lies strictly below the
`-0.1` threshold; a sample at or above the threshold — in particular any
sample in `[-0.1, 0)` — is left unchanged. -/
theorem clip_threshold_spec (v : ℚ) :
    (v < -(1 / 10) → clipEl v = 0) ∧
    (-(1 / 10) ≤ v → clipEl v = v) ∧
    (-(1 / 10) ≤ v → v < 0 → clipEl v = v) := by
  refine ⟨fun h => ?_, fun h => ?_, fun h _ => ?_⟩
  · unfold clipEl; exact if_pos h
  · unfold clipEl; exact if_neg (not_lt.mpr h)
  · unfold clipEl; exact if_neg (not_lt.mpr h)

theorem clip_threshold_spec_witness :
    clipEl (-1) = 0 ∧ clipEl (-(1 / 20)) = -(1 / 20) ∧ clipEl 2 = 2 :=
  ⟨(clip_threshold_spec (-1)).1 (by norm_num),
   (clip_threshold_spec (-(1 / 20))).2.2 (by norm_num) (by norm_num),
   (clip_threshold_spec 2).2.1 (by norm_num)⟩

/-- The part of a path after the last `/` separator, as a character
list: `os.path.basename` for the POSIX paths this script uses. -/
def basenameChars (s : String) : List Char :=
  s.data.foldl (fun acc c => if c = '/' then [] else acc ++ [c]) []

/-- Index of the last `.` in a character list, if any
(`str.rfind('.')`). -/
def lastDotIdx (cs : List Char) : Option ℕ :=
  match cs.reverse.findIdx? (fun c => c = '.') with
  | none => none
  | some k => some (cs.length - 1 - k)

/-- Root of `os.path.splitext` on a basename: split at the last dot,
except when every character before that dot is itself a dot (Python
keeps names such as `.bashrc` or `...` whole). -/
def splitextRoot (cs : List Char) : List Char :=
  match lastDotIdx cs with
  | none => cs
  | some k => if (cs.take k).any (fun c => c ≠ '.') then cs.take k else cs

/-- `os.path.splitext(os.path.basename(filename))[0]` as used on
plot.py lines 98, 120 and 125. -/
def stem (s : String) : String :=
  String.mk (splitextRoot (basenameChars s))

/-- The offset selection of plot.py lines 98-99: files whose stripped
base name is in `['TEK0012']` get `VOLTAGE_OFFSET - 0.08`, every other
file gets `VOLTAGE_OFFSET`. -/
def voltage_offset_for (filename : String) : ℚ :=
  if stem filename ∈ (["TEK0012"] : List String) then VOLTAGE_OFFSET - 8 / 100
  else VOLTAGE_OFFSET

/-- The voltage array after offset correction and clipping
(plot.py lines 102-105), starting from the raw parsed voltages. -/
def processedVoltage (filename : String) (raw : List ℚ) : List ℚ :=
  clipVoltage (applyOffset (voltage_offset_for filename) raw)

/-- The raw current of plot.py lines 111-114:
`sensitivity_v_per_a = sensitivity_mv_per_a / 1000` and
`current = voltage / sensitivity_v_per_a`, applied elementwise. -/
def rawCurrent (vs : List ℚ) (sensitivity_mv_per_a : ℚ) : List ℚ :=
  vs.map (fun v => v / (sensitivity_mv_per_a / 1000))

/-- The `current` array that `plot_voltage_and_current` computes for a
given file, its raw voltages and a sensitivity in mV/A. -/
def plotRawCurrent (filename : String) (raw : List ℚ)
    (sensitivity_mv_per_a : ℚ) : List ℚ :=
  rawCurrent (processedVoltage filename raw) sensitivity_mv_per_a

/-- C5: the single filename-based special case of the numeric
transform: when the base name with its extension stripped is `TEK0012`
the offset used is `VOLTAGE_OFFSET - 0.08 = 1.59`; for every other file
it is `VOLTAGE_OFFSET = 1.67`. -/
theorem voltage_offset_special_case (filename : String) :
    (stem filename = "TEK0012" → voltage_offset_for filename = 159 / 100) ∧
    (stem filename ≠ "TEK0012" → voltage_offset_for filename = 167 / 100) := by
  constructor
  · intro h
    unfold voltage_offset_for
    rw [if_pos (by simp [h])]
    norm_num [VOLTAGE_OFFSET]
  · intro h
    unfold voltage_offset_for
    rw [if_neg (by simp [h])]
    rfl

theorem voltage_offset_special_case_witness :
    voltage_offset_for "Oscilloscope-Data/TEK0012.CSV" = 159 / 100 ∧
    voltage_offset_for "Oscilloscope-Data/TEK0008.CSV" = 167 / 100 :=
  ⟨(voltage_offset_special_case "Oscilloscope-Data/TEK0012.CSV").1 (by decide),
   (voltage_offset_special_case "Oscilloscope-Data/TEK0008.CSV").2 (by decide)⟩

/-- C2: every sample of the raw current equals the corresponding
offset-corrected, clipped voltage sample divided by the sensitivity
expressed in V/A, i.e. by `sensitivity_mv_per_a / 1000`. -/
theorem raw_current_eq_voltage_div_sensitivity (filename : String)
    (raw : List ℚ) (sensitivity_mv_per_a : ℚ) (i : ℕ) :
    (plotRawCurrent filename raw sensitivity_mv_per_a)[i]? =
      ((processedVoltage filename raw)[i]?).map
        (fun v => v / (sensitivity_mv_per_a / 1000)) := by
  unfold plotRawCurrent rawCurrent
  exact List.getElem?_map _ _ _

/-- A concrete raw-voltage capture: one sample at `2.67` followed by
ten samples at the sensor rest voltage `1.67`; after offset correction
and clipping it becomes `[1, 0, ..., 0]`. -/
def spikeRaw : List ℚ :=
  267 / 100 :: List.replicate 10 (167 / 100)

theorem processedVoltage_spikeRaw :
    processedVoltage "TEK0008.CSV" spikeRaw = 1 :: List.replicate 10 0 := by
  have hoff : voltage_offset_for "TEK0008.CSV" = 167 / 100 := by
    unfold voltage_offset_for
    rw [if_neg (by decide)]
    rfl
  unfold processedVoltage clipVoltage applyOffset spikeRaw
  rw [hoff]
  norm_num [clipEl, List.map_replicate]

set_option maxHeartbeats 4000000 in
theorem smooth_data_spike :
    smooth_data (1 :: List.replicate 10 0 : List ℚ) 11 =
      [6/11, 5/11, 4/11, 3/11, 2/11, 1/11, 0, 0, 0, 0, 0] := by
  norm_num [smooth_data, convSame, convFull, padEdge,
    List.replicate_succ, List.range_succ]

/-- C4: the raw `current` array of `plot_voltage_and_current` is NOT
the unit conversion of the smoothed voltage: at this concrete capture,
`current = voltage / (sensitivity/1000)` is computed from the clipped
but unsmoothed voltage (line 114), and differs from
`smooth_data(voltage) / (sensitivity/1000)`, contradicting the comment
on line 113 (`using smoothed voltage`). -/
theorem current_uses_unsmoothed_voltage :
    plotRawCurrent "TEK0008.CSV" spikeRaw 200 ≠
      (smooth_data (processedVoltage "TEK0008.CSV" spikeRaw) 11).map
        (fun v => v / (200 / 1000)) := by
  unfold plotRawCurrent rawCurrent
  rw [processedVoltage_spikeRaw, smooth_data_spike]
  norm_num [List.map_replicate]

/-- `read_tek_csv` (plot.py lines 46-79), with Python `float` modelled
by an arbitrary parse function `pf` returning `none` where `float`
would raise `ValueError`: each line is stripped and split on commas; a
line with at least 5 fields whose 4th and 5th fields both parse
contributes one time and one voltage sample; every other line is
skipped. -/
def read_tek_csv (pf : String → Option ℚ) : List String → List ℚ × List ℚ
  | [] => ([], [])
  | line :: rest =>
    let tv := read_tek_csv pf rest
    let parts := line.trim.splitOn ","
    if 5 ≤ parts.length then
      match pf (parts.getD 3 ""), pf (parts.getD 4 "") with
      | some t, some v => (t :: tv.1, v :: tv.2)
      | _, _ => tv
    else tv

/-- The row acceptance criterion of the C6 claim: a row is kept exactly
when it has at least 5 comma-separated fields and its 4th and 5th
fields both parse as floats. -/
def parseRow (pf : String → Option ℚ) (line : String) : Option (ℚ × ℚ) :=
  let parts := line.trim.splitOn ","
  if 5 ≤ parts.length then
    match pf (parts.getD 3 ""), pf (parts.getD 4 "") with
    | some t, some v => some (t, v)
    | _, _ => none
  else none

theorem read_tek_csv_eq_filterMap (pf : String → Option ℚ)
    (lines : List String) :
    read_tek_csv pf lines =
      ((lines.filterMap (parseRow pf)).map Prod.fst,
       (lines.filterMap (parseRow pf)).map Prod.snd) := by
  induction lines with
  | nil => rfl
  | cons line rest ih =>
    by_cases h5 : 5 ≤ (line.trim.splitOn ",").length
    · cases ht : pf ((line.trim.splitOn ",")[3]?.getD "") <;>
        cases hv : pf ((line.trim.splitOn ",")[4]?.getD "") <;>
        simp [read_tek_csv, parseRow, h5, ht, hv, ih, List.getD]
    · simp [read_tek_csv, parseRow, h5, ih]

/-- C6: `read_tek_csv` is total (malformed rows never raise) and
returns exactly the rows with at least 5 comma-separated fields whose
4th and 5th fields both parse as floats, in file order; all other rows
are silently skipped. -/
theorem read_tek_csv_filters_malformed_rows (pf : String → Option ℚ)
    (lines : List String) :
    read_tek_csv pf lines =
      ((lines.filterMap (parseRow pf)).map Prod.fst,
       (lines.filterMap (parseRow pf)).map Prod.snd) :=
  read_tek_csv_eq_filterMap pf lines

/-- C9: the time and voltage arrays returned by `read_tek_csv` always
have the same length: a time value is appended exactly when the voltage
value of the same row is. -/
theorem read_tek_csv_lengths_eq (pf : String → Option ℚ)
    (lines : List String) :
    (read_tek_csv pf lines).1.length = (read_tek_csv pf lines).2.length := by
  rw [read_tek_csv_eq_filterMap]
  simp

/-- The `try/except` body of the batch loop (plot.py lines 225-233):
each file is processed once; a raised exception is recorded (the
printed message) and the loop continues with the remaining files. -/
def processFiles (proc : String → Except String Unit) :
    List String → List (String × Option String)
  | [] => []
  | f :: rest =>
    match proc f with
    | Except.ok _ => (f, none) :: processFiles proc rest
    | Except.error e => (f, some e) :: processFiles proc rest

/-- Stable insertion of a string into a sorted list, the building block
of the model of Python's stable `list.sort()`. -/
def insertSorted (s : String) : List String → List String
  | [] => [s]
  | t :: rest => if s ≤ t then s :: t :: rest else t :: insertSorted s rest

/-- `csv_files.sort()` (plot.py lines 217 and 255) modelled as stable
insertion sort. -/
def sortStrings : List String → List String
  | [] => []
  | s :: rest => insertSorted s (sortStrings rest)

/-- `generate_all_plots` (plot.py lines 198-235) restricted to its
batch semantics: sort the discovered CSV files and process each in turn
under catch-and-continue. -/
def generate_all_plots (proc : String → Except String Unit)
    (csv_files : List String) : List (String × Option String) :=
  processFiles proc (sortStrings csv_files)

theorem processFiles_map_fst (proc : String → Except String Unit)
    (files : List String) :
    (processFiles proc files).map Prod.fst = files := by
  induction files with
  | nil => rfl
  | cons f rest ih =>
    cases hf : proc f <;> simp [processFiles, hf, ih]

/-- C7: batch processing attempts every file of the sorted list exactly
once, in order, regardless of which files fail: a failure is recorded
and the loop continues, with no retry of a failed file. -/
theorem generate_all_plots_attempts_every_file
    (proc : String → Except String Unit) (csv_files : List String) :
    (generate_all_plots proc csv_files).map Prod.fst =
      sortStrings csv_files := by
  unfold generate_all_plots
  exact processFiles_map_fst proc (sortStrings csv_files)

/-- The observable outcome of one invocation of `main` (plot.py lines
237-276): run the batch mode, print an error and return, or call
`plot_voltage_and_current` on a resolved path. -/
inductive MainResult where
  | runAll : MainResult
  | invalidSelection : MainResult
  | fileNotFound (filename : String) : MainResult
  | plotted (filename : String) : MainResult
deriving DecidableEq

/-- Python list indexing `l[i]`: non-negative indices are direct,
negative indices count from the end, and anything else raises
`IndexError` (modelled as `none`). -/
def pyGet {α : Type} (l : List α) (i : ℤ) : Option α :=
  if 0 ≤ i then l.get? i.toNat
  else if (-i).toNat ≤ l.length then l.get? (l.length - (-i).toNat)
  else none

/-- Python `str.lower()` on the ASCII filenames this script sees,
character by character. -/
def pyLower (s : String) : String :=
  String.mk (s.data.map Char.toLower)

/-- `os.path.join(os.path.dirname(__file__), 'Oscilloscope-Data', f)`,
with the script directory abstracted away. -/
def dataPath (f : String) : String :=
  "Oscilloscope-Data/" ++ f

/-- The filename resolution of plot.py line 248: append `.CSV` unless
the argument already ends with it, then join with the data folder. -/
def resolvedArgPath (a : String) : String :=
  dataPath (if a.endsWith ".CSV" then a else a ++ ".CSV")

/-- `main` (plot.py lines 237-276) as a function of its inputs:
`argv1` is `sys.argv[1]` when given; `csv_files` is the directory
listing used by the interactive branch; `choice` is `int(input())`
(`none` when `int` raises `ValueError`); `file_exists` is
`os.path.exists`. The interactive `except (ValueError, IndexError)`
handler maps to the `invalidSelection` outcomes. -/
def mainAction (argv1 : Option String) (csv_files : List String)
    (choice : Option ℤ) (file_exists : String → Bool) : MainResult :=
  match argv1 with
  | some a =>
    if pyLower a = "all" then MainResult.runAll
    else
      let path := resolvedArgPath a
      if file_exists path then MainResult.plotted path
      else MainResult.fileNotFound path
  | none =>
    match choice with
    | none => MainResult.invalidSelection
    | some c =>
      match pyGet (sortStrings csv_files) c with
      | none => MainResult.invalidSelection
      | some f =>
        let path := dataPath f
        if file_exists path then MainResult.plotted path
        else MainResult.fileNotFound path

/-- C8: whenever the resolved input file does not exist, or the
interactive selection fails to parse as an integer or does not index
the listed CSV files, `main` takes an error outcome (a printed message
followed by `return`) and never reaches `plot_voltage_and_current`;
conversely a plot outcome only ever occurs for an existing file. -/
theorem main_error_paths (argv1 : Option String) (csv_files : List String)
    (choice : Option ℤ) (file_exists : String → Bool) :
    (argv1 = none → choice = none →
      mainAction argv1 csv_files choice file_exists =
        MainResult.invalidSelection) ∧
    (∀ c, argv1 = none → choice = some c →
      pyGet (sortStrings csv_files) c = none →
      mainAction argv1 csv_files choice file_exists =
        MainResult.invalidSelection) ∧
    (∀ a, argv1 = some a → pyLower a ≠ "all" →
      file_exists (resolvedArgPath a) = false →
      mainAction argv1 csv_files choice file_exists =
        MainResult.fileNotFound (resolvedArgPath a)) ∧
    (∀ c f, argv1 = none → choice = some c →
      pyGet (sortStrings csv_files) c = some f →
      file_exists (dataPath f) = false →
      mainAction argv1 csv_files choice file_exists =
        MainResult.fileNotFound (dataPath f)) ∧
    (∀ f, mainAction argv1 csv_files choice file_exists =
        MainResult.plotted f → file_exists f = true) := by
  refine ⟨?_, ?_, ?_, ?_, ?_⟩
  · rintro rfl rfl
    rfl
  · rintro c rfl rfl hc
    simp [mainAction, hc]
  · rintro a rfl hall hex
    simp [mainAction, hall, hex]
  · rintro c f rfl rfl hc hex
    simp [mainAction, hc, hex]
  · intro f h
    cases argv1 with
    | none =>
      cases choice with
      | none => simp [mainAction] at h
      | some c =>
        cases hc : pyGet (sortStrings csv_files) c with
        | none => simp [mainAction, hc] at h
        | some g =>
          cases hex : file_exists (dataPath g) with
          | false => simp [mainAction, hc, hex] at h
          | true =>
            simp [mainAction, hc, hex] at h
            rw [← h]
            exact hex
    | some a =>
      by_cases hall : pyLower a = "all"
      · simp [mainAction, hall] at h
      · cases hex : file_exists (resolvedArgPath a) with
        | false => simp [mainAction, hall, hex] at h
        | true =>
          simp [mainAction, hall, hex] at h
          rw [← h]
          exact hex

theorem main_error_paths_witness :
    mainAction none ["TEK0008.CSV"] (some 5) (fun _ => false) =
      MainResult.invalidSelection ∧
    mainAction (some "TEK0042") [] none (fun _ => false) =
      MainResult.fileNotFound (resolvedArgPath "TEK0042") :=
  ⟨(main_error_paths none ["TEK0008.CSV"] (some 5) (fun _ => false)).2.1
     5 rfl rfl (by decide),
   (main_error_paths (some "TEK0042") [] none (fun _ => false)).2.2.1
     "TEK0042" rfl (by decide) rfl⟩
